import Mathlib

/-!
Verification of the WireGuard peer-provisioning and key-custody core.

The definitions below are a shallow embedding of the backend:
* the key generator and validator (`generateKeys`, `isValidWireGuardKey`),
* the address allocator (`getNextAvailableIP`),
* the key-custody store operations from the database layer
  (`savePeerKeys`, `getPeerKeys`, `updatePresharedKey`, `deletePeerKeys`),
* the router client state (`Router`) manipulated through
  `Router.createPeer` / `Router.updatePeer` / `Router.deletePeer`,
* the orchestrating route handlers (`createPeerRoute`, `putPeerInPlace`,
  `putPeerRegen`, `deletePeerRoute`, `getPeerConfigRoute`,
  `cleanupOrphanedPeers`, `postCleanupRoute`).

External I/O is made explicit: randomness of key generation is a
`KeyMaterial` argument, failures of individual router / database calls are
injected through `Option String` fields (the `some` payload is the error
message of the failing call), and each handler returns its HTTP-level
outcome (`Except`) together with the resulting custody store and router
state.
-/

set_option maxHeartbeats 1000000
set_option maxRecDepth 8000

/-- Raw key material: the output of whichever key-generation backend ran
(external tool or crypto fallback).  Both backends produce a private key, a
public key and fresh preshared-key bytes; their randomness is abstracted as
this input. -/
structure KeyMaterial where
  privateKey : String
  publicKey : String
  presharedKey : String
deriving DecidableEq

/-- The value returned by `generateKeys`: a key pair, plus a preshared key
exactly when one was requested. -/
structure Keys where
  privateKey : String
  publicKey : String
  presharedKey : Option String
deriving DecidableEq

/-- `generateKeys(includePresharedKey)`: both backend strategies return the
key pair and attach `presharedKey` exactly when the flag is set. -/
def generateKeys (includePresharedKey : Bool) (ent : KeyMaterial) : Keys :=
  { privateKey := ent.privateKey
    publicKey := ent.publicKey
    presharedKey := if includePresharedKey then some ent.presharedKey else none }

/-- One character of the base64 alphabet used by the key validator. -/
def isBase64Char (c : Char) : Bool :=
  c.isAlpha || c.isDigit || c == '+' || c == '/'

/-- `isValidWireGuardKey`: a string of length 44 matching
the pattern of 43 base64 characters followed by a padding sign. -/
def isValidWireGuardKey (key : String) : Bool :=
  key.length == 44 && (key.toList.take 43).all isBase64Char && key.toList.drop 43 == ['=']

/-- A live peer entry in the router's WireGuard peer table, with the
protocol fields the core reads and writes. -/
structure RouterPeer where
  rid : String
  publicKey : String
  allowedAddress : String
  comment : String
  disabled : String
  presharedKey : Option String
deriving DecidableEq

/-- The router's observable state: its live peer table plus the counter the
model uses to mint identifiers. -/
structure Router where
  peers : List RouterPeer
  nextId : Nat
deriving DecidableEq

/-- Modelled from the spec: the router assigns each created peer an opaque
string identifier that is unique (never the identifier of any peer it
assigned before).  The concrete scheme below is one injective choice of such
opaque strings; nothing downstream inspects their contents. -/
def ridOfNat (n : Nat) : String :=
  String.mk (List.replicate (n + 1) '*')

/-- Router-side peer creation: the router appends the new peer and returns
the freshly assigned identifier. -/
def Router.createPeer (r : Router) (publicKey allowedAddress comment disabled : String)
    (presharedKey : Option String) : String × Router :=
  (ridOfNat r.nextId,
   { peers := r.peers ++
       [{ rid := ridOfNat r.nextId
          publicKey := publicKey
          allowedAddress := allowedAddress
          comment := comment
          disabled := disabled
          presharedKey := presharedKey }]
     nextId := r.nextId + 1 })

/-- Router-side peer removal by identifier. -/
def Router.deletePeer (r : Router) (id : String) : Router :=
  { r with peers := r.peers.filter (fun p => p.rid != id) }

/-- Router-side peer mutation: sets comment, allowed-address and disabled,
and overwrites the preshared key exactly when one is supplied in the update
data. -/
def Router.updatePeer (r : Router) (id : String) (comment allowedAddress disabled : String)
    (presharedKey : Option String) : Router :=
  { r with peers := r.peers.map (fun p =>
      if p.rid == id then
        { p with
          comment := comment
          allowedAddress := allowedAddress
          disabled := disabled
          presharedKey := (match presharedKey with | some k => some k | none => p.presharedKey) }
      else p) }

/-- Well-formedness of a router state: every live identifier was minted by
the router, i.e. comes from a counter value below `nextId`. -/
def Router.WF (r : Router) : Prop :=
  ∀ p ∈ r.peers, ∃ n ∈ List.range r.nextId, p.rid = ridOfNat n

/-- One row of the `peer_keys` table. -/
structure CustodyRecord where
  mikrotik_id : String
  name : String
  private_key : String
  preshared_key : Option String
  allowed_ips : String
  updated_at : Nat
deriving DecidableEq

/-- The custody store: the rows of `peer_keys`, in rowid order. -/
abbrev CustodyStore := List CustodyRecord

/-- `savePeerKeys`: an INSERT OR REPLACE keyed on the UNIQUE `mikrotik_id`
column — any existing row with the same identifier is replaced by the new
row, whose `updated_at` is set to the current time. -/
def savePeerKeys (s : CustodyStore) (mid nm priv : String) (psk : Option String)
    (ips : String) (now : Nat) : CustodyStore :=
  s.filter (fun r => r.mikrotik_id != mid) ++
    [{ mikrotik_id := mid
       name := nm
       private_key := priv
       preshared_key := psk
       allowed_ips := ips
       updated_at := now }]

/-- `getPeerKeys`: SELECT the row whose `mikrotik_id` matches. -/
def getPeerKeys (s : CustodyStore) (mid : String) : Option CustodyRecord :=
  s.find? (fun r => r.mikrotik_id == mid)

/-- `updatePresharedKey`: UPDATE `preshared_key` and `updated_at` of the
rows whose `mikrotik_id` matches. -/
def updatePresharedKey (s : CustodyStore) (mid psk : String) (now : Nat) : CustodyStore :=
  s.map (fun r =>
    if r.mikrotik_id == mid then { r with preshared_key := some psk, updated_at := now } else r)

/-- `deletePeerKeys`: DELETE the rows whose `mikrotik_id` matches. -/
def deletePeerKeys (s : CustodyStore) (mid : String) : CustodyStore :=
  s.filter (fun r => r.mikrotik_id != mid)

/-- Whitespace trimming of request fields (JavaScript `trim()`): drop
whitespace from both ends of the string. -/
def jsTrim (s : String) : String :=
  String.mk (((s.toList.dropWhile Char.isWhitespace).reverse.dropWhile
    Char.isWhitespace).reverse)

/-- The mask-stripping step of the allocator: the part of an
allowed-address before the first slash. -/
def stripMask (s : String) : String :=
  String.mk (s.toList.takeWhile (fun c => c != '/'))

/-- The addresses currently in use, as computed by the allocator: each
peer's allowed-address with its mask stripped, empty entries dropped. -/
def usedIPsOf (peers : List RouterPeer) : List String :=
  (peers.map (fun p => stripMask p.allowedAddress)).filter (fun ip => ip != "")

/-- The configured subnet base, defaulting as in the source. -/
def baseIPOf (clientSubnet : Option String) : String :=
  clientSubnet.getD "172.16.0"

/-- `getNextAvailableIP`: linear scan of host indices 2 through 254 in the
configured base, returning the first address not in use; the failure
message is the one the source throws, wrapped by its catch clause. -/
def getNextAvailableIP (peers : List RouterPeer) (clientSubnet : Option String) :
    Except String String :=
  match (List.range' 2 253).find?
      (fun i => !((usedIPsOf peers).contains (baseIPOf clientSubnet ++ "." ++ toString i))) with
  | some i => .ok (baseIPOf clientSubnet ++ "." ++ toString i ++ "/32")
  | none => .error "Failed to get next available IP: No available IP addresses"

/-- Failure injection for a reconciliation run: the router list call, the
custody-store list call, or the custody delete of the n-th orphan. -/
structure ReconcileFail where
  routerList : Option String
  dbList : Option String
  dbDeleteAt : Option Nat
deriving DecidableEq

/-- The deletion loop of the reconciler: deletes the custody record of each
orphaned entry in turn; `some k` makes the k-th delete call throw, landing
in the catch clause with the store as modified so far. -/
def deleteOrphansLoop : CustodyStore → List CustodyRecord → Option Nat → Bool × CustodyStore
  | s, [], _ => (true, s)
  | s, _ :: _, some 0 => (false, s)
  | s, e :: rest, some (k + 1) => deleteOrphansLoop (deletePeerKeys s e.mikrotik_id) rest (some k)
  | s, e :: rest, none => deleteOrphansLoop (deletePeerKeys s e.mikrotik_id) rest none

/-- `cleanupOrphanedPeers`: diffs the custody store against the router's
live peer-id set and deletes the unmatched custody records, returning the
count removed.  Its catch clause converts any error — router list, store
list, or a failing delete — into a return value of 0. -/
def cleanupOrphanedPeers (f : ReconcileFail) (router : Router) (db : CustodyStore) :
    Nat × CustodyStore :=
  if f.routerList.isSome then (0, db)
  else if f.dbList.isSome then (0, db)
  else
    let activePeerIds := router.peers.map (fun p => p.rid)
    let orphanedEntries := db.filter (fun r => !(activePeerIds.contains r.mikrotik_id))
    match deleteOrphansLoop db orphanedEntries f.dbDeleteAt with
    | (true, db1) => (orphanedEntries.length, db1)
    | (false, db1) => (0, db1)

/-- The JSON payload of the manual cleanup route. -/
structure CleanupResp where
  success : Bool
  message : String
  cleanedCount : Nat
deriving DecidableEq

/-- The manual cleanup route: runs the reconciler and reports the count it
returned as a success payload. -/
def postCleanupRoute (f : ReconcileFail) (router : Router) (db : CustodyStore) :
    Except String CleanupResp × CustodyStore :=
  (Except.ok
     { success := true
       message := "Cleaned up " ++ toString (cleanupOrphanedPeers f router db).1
                    ++ " orphaned entries"
       cleanedCount := (cleanupOrphanedPeers f router db).1 },
   (cleanupOrphanedPeers f router db).2)

/-- The configuration object loaded at startup, restricted to the fields
the modelled handlers read. -/
structure Config where
  clientSubnet : Option String
  serverEndpoint : String
  allowedIPs : String
deriving DecidableEq

/-- Request body of the create route. -/
structure CreateReq where
  name : String
  allowedIPs : Option String
  usePresharedKey : Bool
deriving DecidableEq

/-- Failure injection for the create route: router-side create, custody
save, and the compensating router delete. -/
structure CreateFail where
  routerCreate : Option String
  save : Option String
  cleanupDelete : Option String
deriving DecidableEq

/-- Success payload of the create route (the fields derived from the
operation; the constant telemetry fields are omitted). -/
structure CreateResp where
  id : String
  name : String
  publicKey : String
  allowedIPs : String
  hasPresharedKey : Bool
deriving DecidableEq

/-- The create route: validate the name, generate and validate keys,
resolve the allowed address (allocator when absent or empty), create the
router peer, then save the custody record; if the save fails, attempt the
compensating router delete and surface the save error. -/
def createPeerRoute (cfg : Config) (req : CreateReq) (ent : KeyMaterial) (f : CreateFail)
    (now : Nat) (db : CustodyStore) (router : Router) :
    Except String CreateResp × CustodyStore × Router :=
  if (jsTrim req.name) = "" then (.error "Peer name is required", db, router)
  else
    let keys := generateKeys req.usePresharedKey ent
    if !(isValidWireGuardKey keys.publicKey) then
      (.error "Generated invalid public key", db, router)
    else if (match keys.presharedKey with
             | some k => !(isValidWireGuardKey k)
             | none => false) then
      (.error "Generated invalid preshared key", db, router)
    else
      match (match req.allowedIPs with
             | some a => if a = "" then getNextAvailableIP router.peers cfg.clientSubnet
                         else .ok a
             | none => getNextAvailableIP router.peers cfg.clientSubnet) with
      | .error e => (.error e, db, router)
      | .ok finalAllowedIPs =>
        match f.routerCreate with
        | some m => (.error ("Failed to create peer: " ++ m), db, router)
        | none =>
          let created := Router.createPeer router keys.publicKey finalAllowedIPs
                           (jsTrim req.name) "false" keys.presharedKey
          if created.1 = "" then
            (.error "Failed to get valid MikroTik peer ID", db, created.2)
          else
            match f.save with
            | none =>
              (.ok { id := created.1
                     name := (jsTrim req.name)
                     publicKey := keys.publicKey
                     allowedIPs := finalAllowedIPs
                     hasPresharedKey := keys.presharedKey.isSome },
               savePeerKeys db created.1 (jsTrim req.name) keys.privateKey keys.presharedKey
                 finalAllowedIPs now,
               created.2)
            | some m1 =>
              match f.cleanupDelete with
              | none =>
                (.error ("Failed to save peer keys: " ++ m1), db,
                 Router.deletePeer created.2 created.1)
              | some _ =>
                (.error ("Failed to save peer keys: " ++ m1), db, created.2)

/-- Request body of the update route, in-place mode. -/
structure InPlaceReq where
  name : String
  allowedIPs : String
  enabled : Bool
  updatePresharedKey : Bool
deriving DecidableEq

/-- Failure injection for the in-place update: the custody preshared-key
update and the router peer update. -/
structure InPlaceFail where
  dbPskUpdate : Option String
  routerUpdate : Option String
deriving DecidableEq

/-- Success payload of the in-place update route. -/
structure InPlaceResp where
  id : String
  name : String
  allowedIPs : String
  enabled : Bool
  hasPresharedKey : Bool
  newPresharedKey : Option String
deriving DecidableEq

/-- The in-place branch of the update route: when `updatePresharedKey` is
set it generates a fresh preshared key, validates it, writes it to the
custody store, and then pushes the full update (including the new key) to
the router; the two external writes happen in exactly that order. -/
def putPeerInPlace (id : String) (req : InPlaceReq) (ent : KeyMaterial) (f : InPlaceFail)
    (now : Nat) (db : CustodyStore) (router : Router) :
    Except String InPlaceResp × CustodyStore × Router :=
  if (jsTrim req.name) = "" then (.error "Peer name is required", db, router)
  else if req.updatePresharedKey then
    let psk := (match (generateKeys true ent).presharedKey with | some k => k | none => "")
    if !(isValidWireGuardKey psk) then (.error "Generated invalid preshared key", db, router)
    else
      match f.dbPskUpdate with
      | some m => (.error m, db, router)
      | none =>
        match f.routerUpdate with
        | some m => (.error ("Failed to update peer: " ++ m),
                     updatePresharedKey db id psk now, router)
        | none =>
          (.ok { id := id
                 name := (jsTrim req.name)
                 allowedIPs := req.allowedIPs
                 enabled := req.enabled
                 hasPresharedKey := true
                 newPresharedKey := some psk },
           updatePresharedKey db id psk now,
           Router.updatePeer router id (jsTrim req.name) req.allowedIPs
             (if req.enabled then "false" else "true") (some psk))
  else
    match f.routerUpdate with
    | some m => (.error ("Failed to update peer: " ++ m), db, router)
    | none =>
      (.ok { id := id
             name := (jsTrim req.name)
             allowedIPs := req.allowedIPs
             enabled := req.enabled
             hasPresharedKey := false
             newPresharedKey := none },
       db,
       Router.updatePeer router id (jsTrim req.name) req.allowedIPs
         (if req.enabled then "false" else "true") none)

/-- Request body of the update route, complete-regeneration mode. -/
structure RegenReq where
  name : String
  allowedIPs : String
  enabled : Bool
deriving DecidableEq

/-- Failure injection for complete regeneration: router delete, custody
delete, router create, custody save. -/
structure RegenFail where
  routerDelete : Option String
  dbDelete : Option String
  routerCreate : Option String
  save : Option String
deriving DecidableEq

/-- Success payload of the complete-regeneration route. -/
structure RegenResp where
  id : String
  name : String
  publicKey : String
  allowedIPs : String
  enabled : Bool
  hasPresharedKey : Bool
  regenerated : Bool
deriving DecidableEq

/-- The complete-regeneration branch of the update route: generate a new
key pair with a mandatory preshared key, delete the old router peer and its
custody record, create a new router peer and save a new custody record
under the freshly assigned identifier. -/
def putPeerRegen (id : String) (req : RegenReq) (ent : KeyMaterial) (f : RegenFail)
    (now : Nat) (db : CustodyStore) (router : Router) :
    Except String RegenResp × CustodyStore × Router :=
  if (jsTrim req.name) = "" then (.error "Peer name is required", db, router)
  else
    let newKeys := generateKeys true ent
    if !(isValidWireGuardKey newKeys.publicKey)
        || (match newKeys.presharedKey with
            | some k => !(isValidWireGuardKey k)
            | none => true) then
      (.error "Generated invalid keys", db, router)
    else
      match f.routerDelete with
      | some m => (.error ("Failed to delete peer: " ++ m), db, router)
      | none =>
        let router1 := Router.deletePeer router id
        match f.dbDelete with
        | some m => (.error m, db, router1)
        | none =>
          let db1 := deletePeerKeys db id
          match f.routerCreate with
          | some m => (.error ("Failed to create peer: " ++ m), db1, router1)
          | none =>
            let created := Router.createPeer router1 newKeys.publicKey req.allowedIPs
                             (jsTrim req.name) (if req.enabled then "false" else "true")
                             newKeys.presharedKey
            match f.save with
            | some m => (.error m, db1, created.2)
            | none =>
              (.ok { id := created.1
                     name := (jsTrim req.name)
                     publicKey := newKeys.publicKey
                     allowedIPs := req.allowedIPs
                     enabled := req.enabled
                     hasPresharedKey := true
                     regenerated := true },
               savePeerKeys db1 created.1 (jsTrim req.name) newKeys.privateKey
                 newKeys.presharedKey req.allowedIPs now,
               created.2)

/-- Failure injection for the delete route: router delete and custody
delete. -/
structure DelFail where
  routerDelete : Option String
  dbDelete : Option String
deriving DecidableEq

/-- Success payload of the delete route. -/
structure DeleteResp where
  success : Bool
  message : String
deriving DecidableEq

/-- The delete route: attempt the router delete and swallow its failure,
then delete the custody record unconditionally and report success. -/
def deletePeerRoute (id : String) (f : DelFail) (db : CustodyStore) (router : Router) :
    Except String DeleteResp × CustodyStore × Router :=
  let router1 := (match f.routerDelete with
                  | some _ => router
                  | none => Router.deletePeer router id)
  match f.dbDelete with
  | some m => (.error m, db, router1)
  | none =>
    (.ok { success := true, message := "Peer deleted (including orphaned data if any)" },
     deletePeerKeys db id, router1)

/-- The config document built by the config route: the exact template
literal of the source, with the preshared-key line appended when a key is
stored and the keepalive line appended last. -/
def buildConfigContent (privateKey addressRec serverPub endpoint allowedIPsCfg : String)
    (psk : Option String) : String :=
  (match psk with
   | some k =>
     "[Interface]\nPrivateKey = " ++ privateKey ++ "\nAddress = " ++ addressRec
       ++ "\nDNS = 172.16.0.1\n\n[Peer]\nPublicKey = " ++ serverPub
       ++ "\nEndpoint = " ++ endpoint ++ "\nAllowedIPs = " ++ allowedIPsCfg
       ++ "\nPresharedKey = " ++ k
   | none =>
     "[Interface]\nPrivateKey = " ++ privateKey ++ "\nAddress = " ++ addressRec
       ++ "\nDNS = 172.16.0.1\n\n[Peer]\nPublicKey = " ++ serverPub
       ++ "\nEndpoint = " ++ endpoint ++ "\nAllowedIPs = " ++ allowedIPsCfg)
    ++ "\nPersistentKeepalive = 25"

/-- The config-export route: validate the identifier, require a custody
record and a router-reported server public key, and emit the config
document. -/
def getPeerConfigRoute (cfg : Config) (rawId : String) (db : CustodyStore)
    (serverPublicKey : Option String) : Except String String :=
  let id := jsTrim rawId
  if id = "" || id = "undefined" || id = "null" then .error "Invalid peer ID provided"
  else
    match getPeerKeys db id with
    | none => .error "Peer configuration not found. Keys may not be stored for this peer."
    | some storedKeys =>
      match serverPublicKey with
      | none => .error "Server public key not configured. Please check WireGuard interface setup."
      | some spk =>
        if spk = "" then
          .error "Server public key not configured. Please check WireGuard interface setup."
        else
          .ok (buildConfigContent storedKeys.private_key storedKeys.allowed_ips spk
                 cfg.serverEndpoint cfg.allowedIPs storedKeys.preshared_key)

/-- Modelled from the spec: the fixed config-document template with its
field order — private key, local address, DNS, server public key, endpoint,
allowed-IPs, the optional preshared-key line, then the keepalive line. -/
def specConfigTemplate (privateKey address dns serverPub endpoint allowedIPs : String)
    (psk : Option String) : String :=
  "[Interface]\nPrivateKey = " ++ privateKey ++ "\nAddress = " ++ address
    ++ "\nDNS = " ++ dns ++ "\n\n[Peer]\nPublicKey = " ++ serverPub
    ++ "\nEndpoint = " ++ endpoint ++ "\nAllowedIPs = " ++ allowedIPs
    ++ (match psk with | some k => "\nPresharedKey = " ++ k | none => "")
    ++ "\nPersistentKeepalive = 25"

/-- Char-list prefix test, used by the substring helper. -/
def listStartsWith : List Char → List Char → Bool
  | _, [] => true
  | [], _ :: _ => false
  | a :: as, b :: bs => a == b && listStartsWith as bs

/-- Char-list substring test. -/
def listContainsSub : List Char → List Char → Bool
  | [], pat => pat.isEmpty
  | a :: as, pat => listStartsWith (a :: as) pat || listContainsSub as pat

/-- String substring test, used to state which failure messages appear in a
surfaced error. -/
def strContains (s pat : String) : Bool :=
  listContainsSub s.toList pat.toList

/-- An abstract custody-store operation: a save or a delete. -/
inductive StoreOp
  | save (mid nm priv : String) (psk : Option String) (ips : String) (now : Nat)
  | del (mid : String)

/-- Apply one custody-store operation. -/
def applyOp (s : CustodyStore) : StoreOp → CustodyStore
  | .save mid nm priv psk ips now => savePeerKeys s mid nm priv psk ips now
  | .del mid => deletePeerKeys s mid

/-- Run a sequence of custody-store operations from the empty store. -/
def applyOps (ops : List StoreOp) : CustodyStore :=
  ops.foldl applyOp []

/-- A 44-character well-formed key used in concrete instances. -/
def keyOld : String := "OLDKEYOLDKEYOLDKEYOLDKEYOLDKEYOLDKEYOLDKEYx="

/-- A second 44-character well-formed key used in concrete instances. -/
def keyNew : String := "NEWKEYNEWKEYNEWKEYNEWKEYNEWKEYNEWKEYNEWKEYx="

/-- A 44-character well-formed public key used in concrete instances. -/
def keyPub : String := "PUBKEYPUBKEYPUBKEYPUBKEYPUBKEYPUBKEYPUBKEYx="

/-- A 44-character well-formed private key used in concrete instances. -/
def keyPriv : String := "PRIVATPRIVATPRIVATPRIVATPRIVATPRIVATPRIVATx="

/-- Concrete custody record A with `routerId` 1, used in concrete instances. -/
def recA : CustodyRecord :=
  { mikrotik_id := "1"
    name := "A"
    private_key := keyPriv
    preshared_key := none
    allowed_ips := "172.16.0.2/32"
    updated_at := 0 }

/-- Concrete custody record B with `routerId` 2, used in concrete instances. -/
def recB : CustodyRecord :=
  { mikrotik_id := "2"
    name := "B"
    private_key := keyPriv
    preshared_key := none
    allowed_ips := "172.16.0.3/32"
    updated_at := 0 }

/-- Concrete router whose live peer-id set is exactly the singleton 1. -/
def routerOne : Router :=
  { peers := [{ rid := "1"
                publicKey := keyPub
                allowedAddress := "172.16.0.2/32"
                comment := "A"
                disabled := "false"
                presharedKey := none }]
    nextId := 0 }

/-- Concrete custody record used for the config-export instance
of the §8 spec test. -/
def recExport : CustodyRecord :=
  { mikrotik_id := "7"
    name := "alice"
    private_key := "P"
    preshared_key := some "K"
    allowed_ips := "172.16.0.5/32"
    updated_at := 0 }

/-- Concrete configuration used for the config-export instance. -/
def cfgExport : Config :=
  { clientSubnet := none
    serverEndpoint := "host:51820"
    allowedIPs := "0.0.0.0/0" }

/-- A router peer occupying a given allowed-address, used in allocator
instances. -/
def mkOccPeer (a : String) : RouterPeer :=
  { rid := "x"
    publicKey := keyPub
    allowedAddress := a
    comment := "c"
    disabled := "false"
    presharedKey := none }

/-- Router peers occupying 172.16.0.2 through 172.16.0.10. -/
def peersOccupied : List RouterPeer :=
  [mkOccPeer "172.16.0.2/32", mkOccPeer "172.16.0.3/32", mkOccPeer "172.16.0.4/32",
   mkOccPeer "172.16.0.5/32", mkOccPeer "172.16.0.6/32", mkOccPeer "172.16.0.7/32",
   mkOccPeer "172.16.0.8/32", mkOccPeer "172.16.0.9/32", mkOccPeer "172.16.0.10/32"]

/-- Concrete custody store holding one record for router id 1 whose stored
preshared key is `keyOld`. -/
def dbOld : CustodyStore :=
  [{ mikrotik_id := "1"
     name := "A"
     private_key := keyPriv
     preshared_key := some keyOld
     allowed_ips := "172.16.0.2/32"
     updated_at := 0 }]

/-- Concrete well-formed router holding the single peer it minted with
counter value 0. -/
def routerSingle : Router :=
  { peers := [{ rid := ridOfNat 0
                publicKey := keyPub
                allowedAddress := "172.16.0.2/32"
                comment := "A"
                disabled := "false"
                presharedKey := none }]
    nextId := 1 }

theorem ridOfNat_injective : Function.Injective ridOfNat := by
  intro a b h
  have hdata : (ridOfNat a).data = (ridOfNat b).data := by rw [h]
  simp only [ridOfNat] at hdata
  have hlen := congrArg List.length hdata
  simp only [List.length_replicate] at hlen
  omega

theorem ridOfNat_ne_empty (n : Nat) : ridOfNat n ≠ "" := by
  intro h
  have hdata : (ridOfNat n).data = ("" : String).data := by rw [h]
  simp [ridOfNat] at hdata

theorem WF_rid_ne_fresh {r : Router} (h : Router.WF r) {p : RouterPeer}
    (hp : p ∈ r.peers) : p.rid ≠ ridOfNat r.nextId := by
  obtain ⟨n, hn, he⟩ := h p hp
  rw [he]
  intro hcontra
  have := ridOfNat_injective hcontra
  simp only [List.mem_range] at hn
  omega

theorem getPeerKeys_delete (s : CustodyStore) (mid : String) :
    getPeerKeys (deletePeerKeys s mid) mid = none := by
  simp only [getPeerKeys, deletePeerKeys, List.find?_eq_none]
  intro r hr
  have := (List.mem_filter.mp hr).2
  simpa [bne_iff_ne] using this

theorem getPeerKeys_save (s : CustodyStore) (mid nm priv : String) (psk : Option String)
    (ips : String) (now : Nat) :
    getPeerKeys (savePeerKeys s mid nm priv psk ips now) mid =
      some { mikrotik_id := mid
             name := nm
             private_key := priv
             preshared_key := psk
             allowed_ips := ips
             updated_at := now } := by
  simp only [getPeerKeys, savePeerKeys, List.find?_append]
  have h1 : (s.filter (fun r => r.mikrotik_id != mid)).find?
      (fun r => r.mikrotik_id == mid) = none := by
    simp only [List.find?_eq_none]
    intro r hr
    have := (List.mem_filter.mp hr).2
    simpa [bne_iff_ne] using this
  rw [h1]
  simp

theorem nodup_ids_save (s : CustodyStore) (mid nm priv : String) (psk : Option String)
    (ips : String) (now : Nat)
    (h : (s.map (fun r => r.mikrotik_id)).Nodup) :
    ((savePeerKeys s mid nm priv psk ips now).map (fun r => r.mikrotik_id)).Nodup := by
  simp only [savePeerKeys, List.map_append, List.map_cons, List.map_nil]
  rw [List.nodup_append]
  refine ⟨?_, List.nodup_singleton _, ?_⟩
  · exact ((List.filter_sublist s).map (fun r => r.mikrotik_id)).nodup h
  · intro x hx hxm
    simp only [List.mem_singleton] at hxm
    subst hxm
    obtain ⟨r, hr, hxe⟩ := List.mem_map.mp hx
    have hb := (List.mem_filter.mp hr).2
    rw [hxe] at hb
    simp at hb

theorem nodup_ids_delete (s : CustodyStore) (mid : String)
    (h : (s.map (fun r => r.mikrotik_id)).Nodup) :
    ((deletePeerKeys s mid).map (fun r => r.mikrotik_id)).Nodup :=
  ((List.filter_sublist s).map (fun r => r.mikrotik_id)).nodup h

theorem nodup_ids_applyOps_from (s : CustodyStore) (ops : List StoreOp)
    (h : (s.map (fun r => r.mikrotik_id)).Nodup) :
    ((ops.foldl applyOp s).map (fun r => r.mikrotik_id)).Nodup := by
  induction ops generalizing s with
  | nil => simpa using h
  | cons op rest ih =>
    cases op with
    | save mid nm priv psk ips now =>
      exact ih _ (nodup_ids_save s mid nm priv psk ips now h)
    | del mid =>
      exact ih _ (nodup_ids_delete s mid h)

theorem strListContains_iff (l : List String) (a : String) : l.contains a = true ↔ a ∈ l := by
  induction l with
  | nil => simp
  | cons x xs ih => simp [List.contains_cons, ih, beq_iff_eq]

theorem deleteOrphansLoop_none (L : List CustodyRecord) (s : CustodyStore) :
    deleteOrphansLoop s L none =
      (true, s.filter (fun r => !((L.map (fun e => e.mikrotik_id)).contains r.mikrotik_id))) := by
  induction L generalizing s with
  | nil => simp [deleteOrphansLoop]
  | cons e L ih =>
    simp only [deleteOrphansLoop, ih, deletePeerKeys, List.filter_filter, List.map_cons]
    refine congrArg (Prod.mk true) ?_
    apply List.filter_congr
    intro r hr
    show ((!((L.map (fun e => e.mikrotik_id)).contains r.mikrotik_id))
          && (r.mikrotik_id != e.mikrotik_id))
        = (!((e.mikrotik_id :: L.map (fun e => e.mikrotik_id)).contains r.mikrotik_id))
    rw [List.contains_cons, Bool.not_or, Bool.and_comm]
    rfl

theorem cleanup_noFail (router : Router) (db : CustodyStore) :
    cleanupOrphanedPeers ⟨none, none, none⟩ router db =
      ((db.filter (fun r =>
          !((router.peers.map (fun p => p.rid)).contains r.mikrotik_id))).length,
       db.filter (fun r =>
          (router.peers.map (fun p => p.rid)).contains r.mikrotik_id)) := by
  simp only [cleanupOrphanedPeers, Option.isSome_none, Bool.false_eq_true, if_false,
    deleteOrphansLoop_none]
  refine congrArg (Prod.mk _) ?_
  apply List.filter_congr
  intro r hr
  set active := router.peers.map (fun p => p.rid) with hactive
  cases hA : active.contains r.mikrotik_id with
  | true =>
    have hnot : r.mikrotik_id ∉
        ((db.filter (fun q => !(active.contains q.mikrotik_id))).map
          (fun e => e.mikrotik_id)) := by
      intro hmem
      obtain ⟨e, he, heq⟩ := List.mem_map.mp hmem
      have hb := (List.mem_filter.mp he).2
      rw [heq, hA] at hb
      simp at hb
    have hc : ((db.filter (fun q => !(active.contains q.mikrotik_id))).map
        (fun e => e.mikrotik_id)).contains r.mikrotik_id = false := by
      cases hB : ((db.filter (fun q => !(active.contains q.mikrotik_id))).map
          (fun e => e.mikrotik_id)).contains r.mikrotik_id with
      | false => rfl
      | true => exact absurd ((strListContains_iff _ _).mp hB) hnot
    show (!((db.filter (fun r => !(active.contains r.mikrotik_id))).map
        (fun e => e.mikrotik_id)).contains r.mikrotik_id) = true
    rw [hc]
    rfl
  | false =>
    have hmem : r.mikrotik_id ∈
        ((db.filter (fun q => !(active.contains q.mikrotik_id))).map
          (fun e => e.mikrotik_id)) :=
      List.mem_map.mpr ⟨r, List.mem_filter.mpr ⟨hr, by
        show (!(active.contains r.mikrotik_id)) = true
        rw [hA]
        rfl⟩, rfl⟩
    have hc := (strListContains_iff _ _).mpr hmem
    show (!((db.filter (fun r => !(active.contains r.mikrotik_id))).map
        (fun e => e.mikrotik_id)).contains r.mikrotik_id) = false
    rw [hc]
    rfl

/-- C10: the custody store's save is an upsert keyed on `routerId`
(`mikrotik_id`): saving over an existing identifier replaces the stored row
with the new one rather than failing or adding a second row, so after any
sequence of save/delete operations from the empty store the identifiers in
the store are pairwise distinct — at most one custody record per
`routerId`. -/
theorem custody_save_upsert :
    (∀ (ops : List StoreOp), ((applyOps ops).map (fun r => r.mikrotik_id)).Nodup)
    ∧ (∀ (s : CustodyStore) (mid nm priv : String) (psk : Option String)
         (ips : String) (now : Nat),
        getPeerKeys (savePeerKeys s mid nm priv psk ips now) mid =
          some { mikrotik_id := mid
                 name := nm
                 private_key := priv
                 preshared_key := psk
                 allowed_ips := ips
                 updated_at := now })
    ∧ (∀ (s : CustodyStore) (mid nm priv : String) (psk : Option String)
         (ips : String) (now : Nat),
        ((savePeerKeys s mid nm priv psk ips now).filter
           (fun r => r.mikrotik_id == mid)).length = 1) := by
  refine ⟨?_, getPeerKeys_save, ?_⟩
  · intro ops
    exact nodup_ids_applyOps_from [] ops (by simp)
  · intro s mid nm priv psk ips now
    simp only [savePeerKeys, List.filter_append, List.length_append]
    have h1 : (s.filter (fun r => r.mikrotik_id != mid)).filter
        (fun r => r.mikrotik_id == mid) = [] := by
      rw [List.filter_filter]
      apply List.filter_eq_nil_iff.mpr
      intro r hr
      simp [bne_iff_ne]
    rw [h1]
    simp

/-- C3: a reconciliation run deletes exactly the custody records whose
`routerId` is absent from the router's current live peer-id set, leaves
every record whose `routerId` is present unchanged, and returns the number
of records removed; in particular, with custody records A (`routerId` 1)
and B (`routerId` 2) and live peer-id set containing only 1, it removes
exactly B and returns 1. -/
theorem reconcile_removes_exactly_orphans :
    (∀ (router : Router) (db : CustodyStore),
      cleanupOrphanedPeers ⟨none, none, none⟩ router db =
        ((db.filter (fun r =>
            !((router.peers.map (fun p => p.rid)).contains r.mikrotik_id))).length,
         db.filter (fun r =>
            (router.peers.map (fun p => p.rid)).contains r.mikrotik_id)))
    ∧ cleanupOrphanedPeers ⟨none, none, none⟩ routerOne [recA, recB] = (1, [recA]) :=
  ⟨cleanup_noFail, by decide⟩

/-- C6 is refuted at a concrete input: with an injected router-list failure
(message "connection refused") and an orphaned custody record present, the
reconciler swallows the error and the manual cleanup route reports success
with a count of 0 and an unchanged store — the error is not surfaced to the
caller. -/
theorem reconcile_errors_swallowed_cex :
    postCleanupRoute ⟨some "connection refused", none, none⟩ routerOne [recB] =
      (.ok { success := true
             message := "Cleaned up 0 orphaned entries"
             cleanedCount := 0 },
       [recB]) := by
  rfl

/-- C6 (amended): every error arising inside a reconciliation run — router
list failure, custody-store list failure, or a failing delete — is caught
by the reconciler and converted into a return value of 0 (with the store
left as it was at the failure point), and the manual cleanup route always
reports success with that count; such errors are therefore not surfaced to
the caller. -/
theorem reconcile_errors_swallowed :
    (∀ (m : String) (g : Option String) (k : Option Nat)
       (router : Router) (db : CustodyStore),
        cleanupOrphanedPeers ⟨some m, g, k⟩ router db = (0, db))
    ∧ (∀ (m : String) (k : Option Nat) (router : Router) (db : CustodyStore),
        cleanupOrphanedPeers ⟨none, some m, k⟩ router db = (0, db))
    ∧ (∀ (f : ReconcileFail) (router : Router) (db : CustodyStore),
        (postCleanupRoute f router db).1 =
          .ok { success := true
                message := "Cleaned up " ++ toString (cleanupOrphanedPeers f router db).1
                             ++ " orphaned entries"
                cleanedCount := (cleanupOrphanedPeers f router db).1 }) := by
  refine ⟨?_, ?_, ?_⟩
  · intro m g k router db
    rfl
  · intro m k router db
    rfl
  · intro f router db
    rfl

/-- C4: for every Delete on which the router-side delete call fails, the
failure is swallowed, the custody record for the identifier is still
deleted, and the route reports success to the caller. -/
theorem delete_swallows_router_failure :
    ∀ (id m : String) (db : CustodyStore) (router : Router),
      deletePeerRoute id ⟨some m, none⟩ db router =
        (.ok { success := true, message := "Peer deleted (including orphaned data if any)" },
         deletePeerKeys db id, router)
      ∧ getPeerKeys (deletePeerKeys db id) id = none :=
  fun id _ db _router => ⟨rfl, getPeerKeys_delete db id⟩

theorem dnsCollapse (s : String) :
    ((s ++ "\nDNS = ") ++ "172.16.0.1") ++ "\n\n[Peer]\nPublicKey = "
      = s ++ "\nDNS = 172.16.0.1\n\n[Peer]\nPublicKey = " := by
  rw [String.append_assoc, String.append_assoc]
  exact congrArg (fun t => s ++ t) rfl

theorem buildConfig_matches_template (p a spk e ips : String) (psk : Option String) :
    buildConfigContent p a spk e ips psk =
      specConfigTemplate p a "172.16.0.1" spk e ips psk := by
  cases psk with
  | none =>
    simp only [buildConfigContent, specConfigTemplate]
    rw [dnsCollapse, String.append_empty]
  | some k =>
    simp only [buildConfigContent, specConfigTemplate]
    rw [dnsCollapse, ← String.append_assoc]

/-- C7: for every custody record found for the requested identifier and a
non-empty router-reported server public key, the config route emits exactly
the fixed-field-order template of the spec — private key, local address,
DNS, server public key, endpoint, allowed-IPs, the preshared-key line
exactly when one is stored, then the keepalive line — under substitution of
the record and configuration values (with the configured resolver being
172.16.0.1). -/
theorem export_config_matches_template (cfg : Config) (rawId : String) (db : CustodyStore)
    (spk : String) (rec : CustodyRecord)
    (h1 : jsTrim rawId ≠ "") (h2 : jsTrim rawId ≠ "undefined") (h3 : jsTrim rawId ≠ "null")
    (hfind : getPeerKeys db (jsTrim rawId) = some rec) (hspk : spk ≠ "") :
    getPeerConfigRoute cfg rawId db (some spk) =
      .ok (specConfigTemplate rec.private_key rec.allowed_ips "172.16.0.1" spk
             cfg.serverEndpoint cfg.allowedIPs rec.preshared_key) := by
  simp only [getPeerConfigRoute, h1, h2, h3, hfind, hspk, if_false, if_neg,
    buildConfig_matches_template, decide_eq_true_eq]
  simp [h1, h2, h3, hspk, buildConfig_matches_template]

/-- Witness for the config-export theorem at the concrete §8 instance:
private key P, address 172.16.0.5/32, server public key S, endpoint
host:51820, allowed-IPs 0.0.0.0/0, preshared key K. -/
theorem export_config_matches_template_witness :
    getPeerConfigRoute cfgExport "7" [recExport] (some "S") =
      .ok ("[Interface]\nPrivateKey = P\nAddress = 172.16.0.5/32\nDNS = 172.16.0.1\n\n[Peer]\nPublicKey = S\nEndpoint = host:51820\nAllowedIPs = 0.0.0.0/0\nPresharedKey = K\nPersistentKeepalive = 25") :=
  export_config_matches_template cfgExport "7" [recExport] "S" recExport
    (by decide) (by decide) (by decide) (by decide) (by decide)

/-- C8: the allocator strips the mask from each router-reported address and
linearly scans host indices 2 through 254 in the configured base: it
returns the first unused base.N/32 (so it is a deterministic function of
the peer set), and when every one of the 253 slots is occupied it fails
with the address-pool-exhausted error. -/
theorem allocator_first_free :
    (∀ (peers : List RouterPeer) (sub : Option String) (i : Nat),
        i ∈ List.range' 2 253 →
        (∀ j ∈ List.range' 2 253, j < i →
          (usedIPsOf peers).contains (baseIPOf sub ++ "." ++ toString j) = true) →
        (usedIPsOf peers).contains (baseIPOf sub ++ "." ++ toString i) = false →
        getNextAvailableIP peers sub = .ok (baseIPOf sub ++ "." ++ toString i ++ "/32"))
    ∧ (∀ (peers : List RouterPeer) (sub : Option String),
        (∀ j ∈ List.range' 2 253,
          (usedIPsOf peers).contains (baseIPOf sub ++ "." ++ toString j) = true) →
        getNextAvailableIP peers sub =
          .error "Failed to get next available IP: No available IP addresses") := by
  constructor
  · intro peers sub i hi hbelow hfree
    obtain ⟨t, ht, he⟩ := List.mem_range'.mp hi
    have hsplit := List.range'_append 2 (i - 2) (255 - i) 1
    have e1 : 2 + 1 * (i - 2) = i := by omega
    rw [e1] at hsplit
    have hsplit' : List.range' 2 (i - 2) ++ List.range' i (255 - i) = List.range' 2 253 := by
      rw [hsplit]
      congr 1
      omega
    have hl1 : (List.range' 2 (i - 2)).find?
        (fun j => !((usedIPsOf peers).contains (baseIPOf sub ++ "." ++ toString j))) = none := by
      rw [List.find?_eq_none]
      intro j hj
      obtain ⟨u, hu, hje⟩ := List.mem_range'.mp hj
      have hjmem : j ∈ List.range' 2 253 := List.mem_range'.mpr ⟨j - 2, by omega, by omega⟩
      have hc := hbelow j hjmem (by omega)
      show ¬((!((usedIPsOf peers).contains (baseIPOf sub ++ "." ++ toString j))) = true)
      rw [hc]
      simp
    have e3 : 255 - i = (254 - i) + 1 := by omega
    have hfind : (List.range' 2 253).find?
        (fun j => !((usedIPsOf peers).contains (baseIPOf sub ++ "." ++ toString j)))
        = some i := by
      rw [← hsplit', List.find?_append, hl1, e3, List.range'_succ]
      simp only [Option.none_or]
      have hp : (fun j => !((usedIPsOf peers).contains (baseIPOf sub ++ "." ++ toString j))) i
          = true := by
        show (!((usedIPsOf peers).contains (baseIPOf sub ++ "." ++ toString i))) = true
        rw [hfree]
        rfl
      exact List.find?_cons_of_pos _ hp
    simp only [getNextAvailableIP, hfind]
  · intro peers sub hall
    have hfind : (List.range' 2 253).find?
        (fun j => !((usedIPsOf peers).contains (baseIPOf sub ++ "." ++ toString j)))
        = none := by
      rw [List.find?_eq_none]
      intro j hj
      have hc := hall j hj
      show ¬((!((usedIPsOf peers).contains (baseIPOf sub ++ "." ++ toString j))) = true)
      rw [hc]
      simp
    simp only [getNextAvailableIP, hfind]

/-- Witness for the allocator theorem at the concrete §8 instance: with
172.16.0.2 through 172.16.0.10 occupied, the next address is
172.16.0.11/32. -/
theorem allocator_first_free_witness :
    getNextAvailableIP peersOccupied none = .ok "172.16.0.11/32" :=
  allocator_first_free.1 peersOccupied none 11 (by decide) (by decide) (by decide)

/-- C1 is refuted at a concrete input: an in-place update with
updatePresharedKey set on which the router push fails (injected message
"timeout") while the custody write succeeded.  The operation surfaces the
router error, yet the custody record already holds the NEW preshared key —
contradicting the claim that the key reaches the router first and that a
failed router push leaves the custody record unchanged. -/
theorem inplace_psk_order_cex :
    putPeerInPlace "1" ⟨"A", "172.16.0.2/32", true, true⟩ ⟨keyPriv, keyPub, keyNew⟩
        ⟨none, some "timeout"⟩ 5 dbOld routerOne =
      (.error "Failed to update peer: timeout",
       [{ mikrotik_id := "1"
          name := "A"
          private_key := keyPriv
          preshared_key := some keyNew
          allowed_ips := "172.16.0.2/32"
          updated_at := 5 }],
       routerOne)
    ∧ keyNew ≠ keyOld := by
  exact ⟨rfl, by decide⟩

/-- C1 (amended): for every in-place update with updatePresharedKey set
(non-empty name, valid generated key), the freshly generated preshared key
is written to the custody store BEFORE it is pushed to the router: if the
custody write fails, the error is surfaced and neither store changes; if
the custody write succeeds and the router push fails, the error is surfaced
and the custody record already holds the new key while the router retains
the old one (the custody record is fresh and the router stale); if both
succeed, both stores hold the new key. -/
theorem inplace_psk_custody_first (id : String) (req : InPlaceReq) (ent : KeyMaterial)
    (now : Nat) (db : CustodyStore) (router : Router)
    (hname : jsTrim req.name ≠ "") (hupd : req.updatePresharedKey = true)
    (hpsk : isValidWireGuardKey ent.presharedKey = true) :
    (∀ (m : String) (g : Option String),
      putPeerInPlace id req ent ⟨some m, g⟩ now db router = (.error m, db, router))
    ∧ (∀ (m : String),
      putPeerInPlace id req ent ⟨none, some m⟩ now db router =
        (.error ("Failed to update peer: " ++ m),
         updatePresharedKey db id ent.presharedKey now, router))
    ∧ putPeerInPlace id req ent ⟨none, none⟩ now db router =
        (.ok { id := id
               name := jsTrim req.name
               allowedIPs := req.allowedIPs
               enabled := req.enabled
               hasPresharedKey := true
               newPresharedKey := some ent.presharedKey },
         updatePresharedKey db id ent.presharedKey now,
         Router.updatePeer router id (jsTrim req.name) req.allowedIPs
           (if req.enabled then "false" else "true") (some ent.presharedKey)) := by
  refine ⟨?_, ?_, ?_⟩
  · intro m g
    simp [putPeerInPlace, generateKeys, hname, hupd, hpsk]
  · intro m
    simp [putPeerInPlace, generateKeys, hname, hupd, hpsk]
  · simp [putPeerInPlace, generateKeys, hname, hupd, hpsk]

/-- Witness for the amended C1 theorem at a concrete input: with the
custody write succeeding and the router push failing, the custody record is
updated to the new key and the router error is surfaced. -/
theorem inplace_psk_custody_first_witness :
    putPeerInPlace "1" ⟨"A", "172.16.0.2/32", true, true⟩ ⟨keyPriv, keyPub, keyNew⟩
        ⟨none, some "timeout"⟩ 5 dbOld routerOne =
      (.error ("Failed to update peer: " ++ "timeout"),
       updatePresharedKey dbOld "1" keyNew 5, routerOne) :=
  (inplace_psk_custody_first "1" ⟨"A", "172.16.0.2/32", true, true⟩ ⟨keyPriv, keyPub, keyNew⟩
     5 dbOld routerOne (by decide) rfl (by decide)).2.1 "timeout"

theorem deletePeer_append_fresh (router : Router) (hwf : Router.WF router)
    (p : RouterPeer) (hp : p.rid = ridOfNat router.nextId) (n : Nat) :
    Router.deletePeer { peers := router.peers ++ [p], nextId := n } (ridOfNat router.nextId) =
      { peers := router.peers, nextId := n } := by
  simp only [Router.deletePeer, List.filter_append]
  refine congrArg (fun l => Router.mk l n) ?_
  have h2 : List.filter (fun q => q.rid != ridOfNat router.nextId) [p] =
      ([] : List RouterPeer) := by
    simp [hp]
  have h1 : router.peers.filter (fun q => q.rid != ridOfNat router.nextId) = router.peers :=
    List.filter_eq_self.mpr (fun q hq => by
      have hne := WF_rid_ne_fresh hwf hq
      simpa [bne_iff_ne] using hne)
  rw [h1, h2, List.append_nil]

/-- C2: for every Create in which the router-side creation succeeds and the
custody save fails (while the compensating delete succeeds), the
just-created router peer is deleted again, the original save error is
surfaced (prefixed as in the source), no custody record exists for the new
identifier, and re-running Create for the same name succeeds. -/
theorem create_compensation (cfg : Config) (name a m : String) (ent ent2 : KeyMaterial)
    (now now2 : Nat) (db : CustodyStore) (router : Router)
    (hname : jsTrim name ≠ "") (ha : a ≠ "")
    (hpub : isValidWireGuardKey ent.publicKey = true)
    (hpsk : isValidWireGuardKey ent.presharedKey = true)
    (hpub2 : isValidWireGuardKey ent2.publicKey = true)
    (hpsk2 : isValidWireGuardKey ent2.presharedKey = true)
    (hwf : Router.WF router)
    (hfresh : getPeerKeys db (ridOfNat router.nextId) = none) :
    createPeerRoute cfg ⟨name, some a, true⟩ ent ⟨none, some m, none⟩ now db router =
      (.error ("Failed to save peer keys: " ++ m), db,
       { peers := router.peers, nextId := router.nextId + 1 })
    ∧ getPeerKeys db (ridOfNat router.nextId) = none
    ∧ ∃ resp, (createPeerRoute cfg ⟨name, some a, true⟩ ent2 ⟨none, none, none⟩ now2 db
        { peers := router.peers, nextId := router.nextId + 1 }).1 = .ok resp
        ∧ resp.name = jsTrim name := by
  refine ⟨?_, hfresh, ?_⟩
  · simp [createPeerRoute, generateKeys, Router.createPeer, hname, ha, hpub, hpsk,
      ridOfNat_ne_empty, deletePeer_append_fresh router hwf]
  · refine ⟨{ id := ridOfNat (router.nextId + 1)
              name := jsTrim name
              publicKey := ent2.publicKey
              allowedIPs := a
              hasPresharedKey := true }, ?_, rfl⟩
    simp [createPeerRoute, generateKeys, Router.createPeer, hname, ha, hpub2, hpsk2,
      ridOfNat_ne_empty]

/-- Witness for the create-compensation theorem at a concrete input: the
save fails with "disk full", the router peer is removed again, the store is
untouched, and the save error is surfaced. -/
theorem create_compensation_witness :
    createPeerRoute cfgExport ⟨"bob", some "172.16.0.9/32", true⟩ ⟨keyPriv, keyPub, keyNew⟩
        ⟨none, some "disk full", none⟩ 7 [] routerSingle =
      (.error ("Failed to save peer keys: " ++ "disk full"), [],
       { peers := routerSingle.peers, nextId := routerSingle.nextId + 1 }) :=
  (create_compensation cfgExport "bob" "172.16.0.9/32" "disk full" ⟨keyPriv, keyPub, keyNew⟩
     ⟨keyPriv, keyPub, keyOld⟩ 7 8 [] routerSingle (by decide) (by decide) (by decide)
     (by decide) (by decide) (by decide) (by unfold Router.WF; decide) (by decide)).1

/-- C5 is refuted at a concrete input: when the custody save fails with
"save boom" and the compensating router delete fails with "delete boom",
the caller-visible error is exactly the prefixed save failure and does not
contain the compensation failure message — the two failures are not
reported together. -/
theorem compensation_failure_reporting_cex :
    (createPeerRoute cfgExport ⟨"bob", some "172.16.0.9/32", true⟩ ⟨keyPriv, keyPub, keyNew⟩
        ⟨none, some "save boom", some "delete boom"⟩ 7 [] routerSingle).1 =
      .error "Failed to save peer keys: save boom"
    ∧ strContains "Failed to save peer keys: save boom" "delete boom" = false :=
  ⟨rfl, by decide⟩

/-- C5 (amended): when the custody save fails and the compensating router
delete also fails, only the primary save failure is surfaced to the caller
(prefixed "Failed to save peer keys: ", a function of the save error
alone); the compensation failure is logged but not included in the
caller-visible error, no custody record is written, and the just-created
router peer is left behind. -/
theorem compensation_failure_only_primary_reported (cfg : Config) (name a m1 m2 : String)
    (ent : KeyMaterial) (now : Nat) (db : CustodyStore) (router : Router)
    (hname : jsTrim name ≠ "") (ha : a ≠ "")
    (hpub : isValidWireGuardKey ent.publicKey = true)
    (hpsk : isValidWireGuardKey ent.presharedKey = true) :
    createPeerRoute cfg ⟨name, some a, true⟩ ent ⟨none, some m1, some m2⟩ now db router =
      (.error ("Failed to save peer keys: " ++ m1), db,
       { peers := router.peers ++
           [{ rid := ridOfNat router.nextId
              publicKey := ent.publicKey
              allowedAddress := a
              comment := jsTrim name
              disabled := "false"
              presharedKey := some ent.presharedKey }]
         nextId := router.nextId + 1 }) := by
  simp [createPeerRoute, generateKeys, Router.createPeer, hname, ha, hpub, hpsk,
    ridOfNat_ne_empty]

/-- Witness for the amended C5 theorem at a concrete input. -/
theorem compensation_failure_only_primary_reported_witness :
    createPeerRoute cfgExport ⟨"bob", some "172.16.0.9/32", true⟩ ⟨keyPriv, keyPub, keyNew⟩
        ⟨none, some "save boom", some "delete boom"⟩ 7 [] routerSingle =
      (.error ("Failed to save peer keys: " ++ "save boom"), [],
       { peers := routerSingle.peers ++
           [{ rid := ridOfNat routerSingle.nextId
              publicKey := keyPub
              allowedAddress := "172.16.0.9/32"
              comment := jsTrim "bob"
              disabled := "false"
              presharedKey := some keyNew }]
         nextId := routerSingle.nextId + 1 }) :=
  compensation_failure_only_primary_reported cfgExport "bob" "172.16.0.9/32" "save boom"
    "delete boom" ⟨keyPriv, keyPub, keyNew⟩ 7 [] routerSingle (by decide) (by decide)
    (by decide) (by decide)

/-- C9: every successful complete regeneration deletes the old router peer
and its custody record, creates a new router peer and custody record under
the router's freshly assigned identifier, stores a non-null preshared key
in the new custody record, and returns an identifier different from the
original one. -/
theorem regen_new_identity (req : RegenReq) (ent : KeyMaterial) (id : String) (now : Nat)
    (db : CustodyStore) (router : Router)
    (hname : jsTrim req.name ≠ "")
    (hpub : isValidWireGuardKey ent.publicKey = true)
    (hpsk : isValidWireGuardKey ent.presharedKey = true)
    (hwf : Router.WF router)
    (hid : id ∈ router.peers.map (fun p => p.rid)) :
    putPeerRegen id req ent ⟨none, none, none, none⟩ now db router =
      (.ok { id := ridOfNat router.nextId
             name := jsTrim req.name
             publicKey := ent.publicKey
             allowedIPs := req.allowedIPs
             enabled := req.enabled
             hasPresharedKey := true
             regenerated := true },
       savePeerKeys (deletePeerKeys db id) (ridOfNat router.nextId) (jsTrim req.name)
         ent.privateKey (some ent.presharedKey) req.allowedIPs now,
       { peers := router.peers.filter (fun p => p.rid != id) ++
           [{ rid := ridOfNat router.nextId
              publicKey := ent.publicKey
              allowedAddress := req.allowedIPs
              comment := jsTrim req.name
              disabled := if req.enabled then "false" else "true"
              presharedKey := some ent.presharedKey }]
         nextId := router.nextId + 1 })
    ∧ ridOfNat router.nextId ≠ id
    ∧ getPeerKeys (savePeerKeys (deletePeerKeys db id) (ridOfNat router.nextId)
        (jsTrim req.name) ent.privateKey (some ent.presharedKey) req.allowedIPs now)
        (ridOfNat router.nextId) =
      some { mikrotik_id := ridOfNat router.nextId
             name := jsTrim req.name
             private_key := ent.privateKey
             preshared_key := some ent.presharedKey
             allowed_ips := req.allowedIPs
             updated_at := now }
    ∧ getPeerKeys (savePeerKeys (deletePeerKeys db id) (ridOfNat router.nextId)
        (jsTrim req.name) ent.privateKey (some ent.presharedKey) req.allowedIPs now) id
      = none := by
  have hneq : ridOfNat router.nextId ≠ id := by
    obtain ⟨p, hp, hpe⟩ := List.mem_map.mp hid
    obtain ⟨n, hn, he⟩ := hwf p hp
    rw [← hpe, he]
    intro hc
    have := ridOfNat_injective hc
    simp only [List.mem_range] at hn
    omega
  refine ⟨?_, hneq, getPeerKeys_save _ _ _ _ _ _ _, ?_⟩
  · simp [putPeerRegen, generateKeys, Router.createPeer, Router.deletePeer,
      hname, hpub, hpsk]
  · simp only [getPeerKeys, savePeerKeys, List.find?_append]
    have h1 : ((deletePeerKeys db id).filter
        (fun r => r.mikrotik_id != ridOfNat router.nextId)).find?
        (fun r => r.mikrotik_id == id) = none := by
      rw [List.find?_eq_none]
      intro r hr
      have hmem := List.mem_filter.mp hr
      have hmem2 := List.mem_filter.mp hmem.1
      have hb := hmem2.2
      simpa [bne_iff_ne] using hb
    rw [h1]
    have h2 : (ridOfNat router.nextId == id) = false := by
      simpa using hneq
    simp [h2]

/-- Witness for the regeneration theorem at a concrete input: regenerating
the single peer of a well-formed router yields the next minted identifier,
which differs from the original, with a preshared key stored in the new
custody record. -/
theorem regen_new_identity_witness :
    putPeerRegen (ridOfNat 0) ⟨"A", "172.16.0.9/32", true⟩ ⟨keyPriv, keyPub, keyNew⟩
        ⟨none, none, none, none⟩ 9 dbOld routerSingle =
      (.ok { id := ridOfNat routerSingle.nextId
             name := jsTrim "A"
             publicKey := keyPub
             allowedIPs := "172.16.0.9/32"
             enabled := true
             hasPresharedKey := true
             regenerated := true },
       savePeerKeys (deletePeerKeys dbOld (ridOfNat 0)) (ridOfNat routerSingle.nextId)
         (jsTrim "A") keyPriv (some keyNew) "172.16.0.9/32" 9,
       { peers := routerSingle.peers.filter (fun p => p.rid != ridOfNat 0) ++
           [{ rid := ridOfNat routerSingle.nextId
              publicKey := keyPub
              allowedAddress := "172.16.0.9/32"
              comment := jsTrim "A"
              disabled := "false"
              presharedKey := some keyNew }]
         nextId := routerSingle.nextId + 1 })
    ∧ ridOfNat routerSingle.nextId ≠ ridOfNat 0 :=
  have h := regen_new_identity ⟨"A", "172.16.0.9/32", true⟩ ⟨keyPriv, keyPub, keyNew⟩
    (ridOfNat 0) 9 dbOld routerSingle (by decide) (by decide) (by decide)
    (by unfold Router.WF; decide) (by decide)
  ⟨h.1, h.2.1⟩
